import Mathlib

/-!
# Verification of the MCP Integration Service and Local Sync Helper

A shallow embedding, in Lean 4, of the parts of the repository needed to settle
the frozen claims: the OAuth-session store, the token store, the authentication
helpers, the integration service (initiate/complete/execute), the OAuth callback
endpoint, and the tool-server config builder.

Conventions of the embedding:
* MongoDB collections are modelled as Lean lists of records; `insert_one`
  appends, `find_one` returns the first match, `find_one_and_delete` removes
  the first match, `update_one` rewrites the first match.
* Python `Optional`/missing-dict-key values are `Option`; Python truthiness
  of a string (`if s:`) is `s ≠ ""`.
* Python exceptions are `Except` values; the distinct exception classes the
  code distinguishes (`ValueError` caught by the router, everything else
  mapped to 500) are an inductive type.
* Timestamps (`datetime.utcnow()`) are natural numbers passed in explicitly.
-/

namespace MCPService

/-! ## Association-list helpers (Python dict / keyed collections) -/

/-- Lookup of the first binding of a key in an association list. -/
def assocGet {α : Type} (l : List (String × α)) (k : String) : Option α :=
  match l with
  | [] => none
  | (k', v) :: t => if k' = k then some v else assocGet t k

/-- Python `d[k] = v`: replace the first binding of `k`, or append a new one. -/
def assocSet {α : Type} (l : List (String × α)) (k : String) (v : α) :
    List (String × α) :=
  match l with
  | [] => [(k, v)]
  | (k', v') :: t => if k' = k then (k, v) :: t else (k', v') :: assocSet t k v

/-- Python `del d[k]`: drop every binding of the key. -/
def assocDrop {α : Type} (l : List (String × α)) (k : String) :
    List (String × α) :=
  match l with
  | [] => []
  | (k', v) :: t => if k' = k then assocDrop t k else (k', v) :: assocDrop t k

theorem assocGet_assocSet_self {α : Type} (l : List (String × α)) (k : String)
    (v : α) : assocGet (assocSet l k v) k = some v := by
  induction l with
  | nil => simp [assocSet, assocGet]
  | cons hd t ih =>
    by_cases h : hd.1 = k
    · simp [assocSet, assocGet, h]
    · simp [assocSet, assocGet, h, ih]

theorem assocGet_assocSet_ne {α : Type} (l : List (String × α)) (k k' : String)
    (v : α) (h : k' ≠ k) : assocGet (assocSet l k' v) k = assocGet l k := by
  induction l with
  | nil => simp [assocSet, assocGet, h]
  | cons hd t ih =>
    by_cases h' : hd.1 = k'
    · simp [assocSet, assocGet, h', h]
    · simp only [assocSet, h', if_false]
      by_cases h'' : hd.1 = k
      · simp [assocGet, h'']
      · simp [assocGet, h'', ih]

/-! ## Python string primitives

Python strings are sequences of characters; `lower`, slicing, `startswith`,
`split` and `replace` are modelled on the character list (`String.toList`).
The recursions carry an explicit character-count fuel so they are structural;
the fuel (`length + 1`) always suffices because every step consumes at least
one character. -/

/-- Python `s.lower()` (inputs here are ASCII provider/app names). -/
def pyLower (s : String) : String :=
  String.mk (s.toList.map Char.toLower)

/-- Python `s[n:]`. -/
def pyDrop (s : String) (n : Nat) : String :=
  String.mk (s.toList.drop n)

/-- Python `s.startswith(p)`. -/
def pyStartsWith (s p : String) : Bool :=
  p.toList.isPrefixOf s.toList

/-- Splitting a character list on a non-empty separator, Python
`str.split(sep)` style: `"a==b" → ["a", "", "b"]`, `"" → [""]`. -/
def charsSplitOn (sep : List Char) : Nat → List Char → List (List Char)
  | 0, cs => [cs]
  | fuel + 1, cs =>
    match cs with
    | [] => [[]]
    | c :: rest =>
      if ¬ sep = [] ∧ sep.isPrefixOf (c :: rest) then
        [] :: charsSplitOn sep fuel ((c :: rest).drop sep.length)
      else
        match charsSplitOn sep fuel rest with
        | [] => [[c]]
        | g :: gs => (c :: g) :: gs

/-- Python `s.split(sep)` for a non-empty separator. -/
def pySplitOn (s sep : String) : List String :=
  (charsSplitOn sep.toList (s.toList.length + 1) s.toList).map String.mk

/-- Replacing every non-overlapping occurrence of a non-empty pattern, left
to right, in a character list. -/
def charsReplace (pat rep : List Char) : Nat → List Char → List Char
  | 0, cs => cs
  | fuel + 1, cs =>
    match cs with
    | [] => []
    | c :: rest =>
      if ¬ pat = [] ∧ pat.isPrefixOf (c :: rest) then
        rep ++ charsReplace pat rep fuel ((c :: rest).drop pat.length)
      else c :: charsReplace pat rep fuel rest

/-- Python `s.replace(pat, rep)` for a non-empty pattern. -/
def pyReplace (s pat rep : String) : String :=
  String.mk (charsReplace pat.toList rep.toList (s.toList.length + 1) s.toList)

/-! ## OAuth session storage (`integration_service.py`, lines 22-78)

The `oauth_sessions` MongoDB collection.  `store_oauth_session` is an
`insert_one`; `get_oauth_session` is a `find_one_and_delete` on the session id
(one-time use); `cleanup_old_oauth_sessions` is a `delete_many` on a
created-before-cutoff filter. -/

structure OAuthSession where
  session_id : String
  redirect_url : String
  user_id : String
  provider : String
  created_at : Nat
deriving DecidableEq, Repr

/-- `store_oauth_session(session_id, redirect_url, user_id, provider)`:
inserts one record, stamped with the current time. -/
def store_oauth_session (sessions : List OAuthSession)
    (session_id redirect_url user_id provider : String) (now : Nat) :
    List OAuthSession :=
  sessions ++ [{ session_id := session_id, redirect_url := redirect_url,
                 user_id := user_id, provider := provider, created_at := now }]

/-- `collection.find_one_and_delete({"session_id": sid})`: returns the first
record whose `session_id` matches and the collection with that record
removed. -/
def findOneAndDeleteSession (sessions : List OAuthSession) (sid : String) :
    Option OAuthSession × List OAuthSession :=
  match sessions with
  | [] => (none, [])
  | s :: rest =>
    if s.session_id = sid then (some s, rest)
    else
      let r := findOneAndDeleteSession rest sid
      (r.1, s :: r.2)

/-- `get_oauth_session(session_id)`: retrieve and delete (one-time use). -/
def get_oauth_session (sessions : List OAuthSession) (sid : String) :
    Option OAuthSession × List OAuthSession :=
  findOneAndDeleteSession sessions sid

/-- `cleanup_old_oauth_sessions(max_age_minutes)`: `delete_many` of every
session with `created_at < now - max_age_minutes` (times in minutes). -/
def cleanup_old_oauth_sessions (sessions : List OAuthSession) (now : Nat)
    (max_age_minutes : Nat) : List OAuthSession :=
  sessions.filter (fun s => ¬ s.created_at + max_age_minutes < now)

theorem findOneAndDeleteSession_of_fresh (sessions : List OAuthSession)
    (sid : String) (h : ∀ s ∈ sessions, s.session_id ≠ sid) :
    findOneAndDeleteSession sessions sid = (none, sessions) := by
  induction sessions with
  | nil => rfl
  | cons s rest ih =>
    have hs : s.session_id ≠ sid := h s (by simp)
    have hrest : ∀ t ∈ rest, t.session_id ≠ sid := fun t ht => h t (by simp [ht])
    simp [findOneAndDeleteSession, hs, ih hrest]

theorem findOneAndDeleteSession_append_fresh (sessions : List OAuthSession)
    (s : OAuthSession) (h : ∀ t ∈ sessions, t.session_id ≠ s.session_id) :
    findOneAndDeleteSession (sessions ++ [s]) s.session_id = (some s, sessions) := by
  induction sessions with
  | nil => simp [findOneAndDeleteSession]
  | cons t rest ih =>
    have ht : t.session_id ≠ s.session_id := h t (by simp)
    have hrest : ∀ u ∈ rest, u.session_id ≠ s.session_id :=
      fun u hu => h u (by simp [hu])
    simp [findOneAndDeleteSession, ht, ih hrest]

/-! ## Token store (`token_manager.py`)

The local filesystem is an association list from file name to file content;
a file either holds parsed JSON or is unparseable.  `json.dump`/`json.load`
round-trip on JSON-representable dicts is modelled as the identity. -/

inductive Json where
  | null : Json
  | bool : Bool → Json
  | num : Int → Json
  | str : String → Json
  | arr : List Json → Json
  | obj : List (String × Json) → Json

/-- Python `dict.get(key)` on a parsed JSON object. -/
def jsonObjGet (fields : List (String × Json)) (key : String) : Option Json :=
  assocGet fields key

inductive FileContent where
  | jsonFile : Json → FileContent
  | unparseable : FileContent

abbrev TokenFS := List (String × FileContent)

/-- `get_token_file(email)`: `TOKENS_DIR / f"{email}.json"`. -/
def get_token_file (email : String) : String :=
  email ++ ".json"

/-- `save_tokens(email, tokens)`: writes `{"email": email, "tokens": tokens}`
to the token file, overwriting any prior content. -/
def save_tokens (fs : TokenFS) (email : String) (tokens : Json) : TokenFS :=
  assocSet fs (get_token_file email)
    (.jsonFile (.obj [("email", .str email), ("tokens", tokens)]))

inductive PyExc where
  | valueError : String → PyExc
  | typeError : String → PyExc
  | attributeError : String → PyExc
deriving DecidableEq, Repr

/-- `load_tokens(email)`: `None` if the file is missing; `None` if reading or
JSON-parsing fails (`IOError`/`JSONDecodeError` are caught); otherwise
`data.get("tokens")`.  A file whose JSON is not an object makes
`data.get` raise `AttributeError`, which the code does not catch. -/
def load_tokens (fs : TokenFS) (email : String) :
    Except PyExc (Option Json) :=
  match assocGet fs (get_token_file email) with
  | none => .ok none
  | some .unparseable => .ok none
  | some (.jsonFile (.obj fields)) => .ok (jsonObjGet fields "tokens")
  | some (.jsonFile _) =>
    .error (.attributeError "object has no attribute get")

/-! ## Authentication helpers (`api/auth.py`) -/

inductive AuthResult where
  | ok : String → AuthResult
  | httpError : Nat → String → AuthResult
deriving DecidableEq, Repr

/-- `verify_api_key`: the configured `AGENT_API_KEY` (empty string when the
environment variable is unset, per `config.py`) against the `X-API-Key`
header value. -/
def verify_api_key (agent_api_key : String) (x_api_key : String) : AuthResult :=
  if agent_api_key = "" then
    .httpError 500 "Server misconfigured: AGENT_API_KEY not set"
  else if ¬ x_api_key = agent_api_key then
    .httpError 401 "Invalid API key"
  else
    .ok x_api_key

/-- `verify_user_token`: rejects an `Authorization` header that does not start
with `"Bearer "`, strips the 7-character prefix, rejects an empty remainder,
and otherwise returns the remainder itself as the user id. -/
def verify_user_token (authorization : String) : AuthResult :=
  if ¬ pyStartsWith authorization "Bearer " then
    .httpError 401 "Invalid authorization header format"
  else
    let token := pyDrop authorization 7
    if token = "" then .httpError 401 "Invalid token"
    else .ok token

/-! ## Integration records (`models/integration.py`, `integrations` collection)

A MongoDB document of the `integrations` collection.  Fields the code reads
with `.get(...)` are `Option`. -/

structure IntegrationRecord where
  user_id : String
  provider : String
  composio_entity_id : Option String
  composio_connection_id : Option String
  status : String
  connected_email : Option String
  created_at : Nat
  updated_at : Nat
deriving DecidableEq, Repr

/-- `collection.find_one({"user_id": ..., "provider": provider.lower()})`:
first match (`IntegrationService.get_integration`). -/
def findIntegration (db : List IntegrationRecord) (user_id prov : String) :
    Option IntegrationRecord :=
  match db with
  | [] => none
  | r :: rest =>
    if r.user_id = user_id ∧ r.provider = prov then some r
    else findIntegration rest user_id prov

/-- `collection.find_one({"composio_connection_id": cid})`
(`IntegrationService.get_integration_by_connection_id`). -/
def findIntegrationByConnectionId (db : List IntegrationRecord) (cid : String) :
    Option IntegrationRecord :=
  db.find? (fun r => r.composio_connection_id = some cid)

/-- `collection.delete_one({"_id": existing["_id"]})` where `existing` is the
first `(user_id, provider)` match: remove that first match. -/
def deleteFirstIntegration (db : List IntegrationRecord) (user_id prov : String) :
    List IntegrationRecord :=
  match db with
  | [] => []
  | r :: rest =>
    if r.user_id = user_id ∧ r.provider = prov then rest
    else r :: deleteFirstIntegration rest user_id prov

/-- `collection.update_one(filter, {"$set": ...}, upsert=True)`: rewrite the
first `(user_id, provider)` match with `f`, or, when nothing matches, insert
`inserted` (the `$set` plus `$setOnInsert` fields). -/
def updateOneUpsert (db : List IntegrationRecord) (user_id prov : String)
    (f : IntegrationRecord → IntegrationRecord) (inserted : IntegrationRecord) :
    List IntegrationRecord :=
  match db with
  | [] => [inserted]
  | r :: rest =>
    if r.user_id = user_id ∧ r.provider = prov then f r :: rest
    else r :: updateOneUpsert rest user_id prov f inserted

/-! ## Composio wrapper call site (`composio_service.py` / `integration_service.py`)

`ComposioService.initiate_connection` (composio_service.py, line 52) declares
the parameters `user_id`, `app_name`, `redirect_url`, `force_reauth`.
`IntegrationService.initiate_connection` (integration_service.py, line 218)
calls it with the keyword arguments `user_id`, `app_name`, `session_id`,
`force_reauth`.  A Python call binds keyword arguments by name; a keyword
that names no parameter raises `TypeError` before the body runs. -/

def composioInitiateConnectionParams : List String :=
  ["user_id", "app_name", "redirect_url", "force_reauth"]

def integrationServiceInitiateCallKwargs : List String :=
  ["user_id", "app_name", "session_id", "force_reauth"]

/-- Whether every keyword argument of a Python call names a parameter of the
callee (no `**kwargs` is declared by `ComposioService.initiate_connection`). -/
def pythonKeywordBindOk (params kwargs : List String) : Bool :=
  kwargs.all (params.contains ·)

/-- `callback_url = redirect_url or f"{OAUTH_REDIRECT_BASE}/api/integrations/callback"`
(composio_service.py, line 87) — the only callback URL the wrapper ever
computes; it carries no session id. -/
def composioCallbackUrl (redirect_url : Option String) (base : String) : String :=
  match redirect_url with
  | some u => if ¬ u = "" then u else base ++ "/api/integrations/callback"
  | none => base ++ "/api/integrations/callback"

/-- The value the wrapper would return, were it reached: `auth_url`,
`connection_id`, `status` (`"already_connected"` / `"pending"`). -/
structure ConnectionInfo where
  auth_url : Option String
  connection_id : Option String
  status : Option String
deriving DecidableEq, Repr

/-- The Python call `self.composio.initiate_connection(user_id=...,
app_name=..., session_id=..., force_reauth=...)`: keyword binding is checked
first; only if it succeeded would the wrapper body (whose outcome is the
`wrapperOutcome` oracle parameter) run. -/
def callComposioInitiate (wrapperOutcome : Except PyExc ConnectionInfo) :
    Except PyExc ConnectionInfo :=
  if pythonKeywordBindOk composioInitiateConnectionParams
      integrationServiceInitiateCallKwargs then
    wrapperOutcome
  else
    .error (.typeError
      "ComposioService.initiate_connection() got an unexpected keyword argument: session_id")

/-! ## `IntegrationService.initiate_connection` (integration_service.py, 168-281) -/

/-- The dict `initiate_connection` returns on success. -/
structure InitiateResponse where
  auth_url : Option String
  status : Option String
  provider : String
deriving DecidableEq, Repr

/-- The outcome of one `initiate_connection` call: the returned value or the
exception, the two collections afterwards, and whether control reached the
`self.composio.initiate_connection` call site (line 218). -/
structure InitiateOutcome where
  result : Except PyExc InitiateResponse
  db : List IntegrationRecord
  sessions : List OAuthSession
  reachedPlatformCall : Bool
deriving Repr

/-- Continuation of `initiate_connection` after the already-active check and
the force-reauth deletion (lines 201-281).  `freshSessionId` stands for
`str(uuid.uuid4())`; `wrapperOutcome` is what the wrapper body would produce
were the call's keyword binding to succeed (it does not, see the claim-C1
theorem). -/
def initiateConnectionRest (db : List IntegrationRecord)
    (sessions : List OAuthSession) (user_id prov : String)
    (existing : Option IntegrationRecord) (redirect_url : Option String)
    (freshSessionId : String) (now : Nat)
    (wrapperOutcome : Except PyExc ConnectionInfo) : InitiateOutcome :=
  let entity_id := "user_" ++ user_id
  let sessions1 :=
    match redirect_url with
    | some url =>
      if ¬ url = "" then
        store_oauth_session sessions freshSessionId url user_id prov now
      else sessions
    | none => sessions
  let sessions2 := cleanup_old_oauth_sessions sessions1 now 30
  match callComposioInitiate wrapperOutcome with
  | .error e =>
    { result := .error e, db := db, sessions := sessions2,
      reachedPlatformCall := true }
  | .ok info =>
    if info.status = some "already_connected" then
      let setFields := fun (r : IntegrationRecord) =>
        { r with user_id := user_id, provider := prov,
                 composio_entity_id := some entity_id,
                 composio_connection_id := info.connection_id,
                 status := "active", updated_at := now }
      let db' :=
        match existing with
        | some ex => updateOneUpsert db ex.user_id ex.provider setFields ex
        | none =>
          db ++ [{ user_id := user_id, provider := prov,
                   composio_entity_id := some entity_id,
                   composio_connection_id := info.connection_id,
                   status := "active", connected_email := none,
                   created_at := now, updated_at := now }]
      { result := .ok { auth_url := none, status := some "already_connected",
                        provider := prov },
        db := db', sessions := sessions2, reachedPlatformCall := true }
    else
      let setFields := fun (r : IntegrationRecord) =>
        { r with user_id := user_id, provider := prov,
                 composio_entity_id := some entity_id,
                 composio_connection_id := info.connection_id,
                 status := "pending", updated_at := now }
      let db' :=
        match existing with
        | some ex => updateOneUpsert db ex.user_id ex.provider setFields ex
        | none =>
          db ++ [{ user_id := user_id, provider := prov,
                   composio_entity_id := some entity_id,
                   composio_connection_id := info.connection_id,
                   status := "pending", connected_email := none,
                   created_at := now, updated_at := now }]
      match info.auth_url with
      | none =>
        { result := .error (.typeError "KeyError: auth_url"),
          db := db', sessions := sessions2, reachedPlatformCall := true }
      | some url =>
        { result := .ok { auth_url := some url, status := none,
                          provider := prov },
          db := db', sessions := sessions2, reachedPlatformCall := true }

/-- `IntegrationService.initiate_connection(user_id, provider, redirect_url,
force_reauth)`, lines 168-281. -/
def initiate_connection (db : List IntegrationRecord)
    (sessions : List OAuthSession) (user_id provider : String)
    (redirect_url : Option String) (force_reauth : Bool)
    (freshSessionId : String) (now : Nat)
    (wrapperOutcome : Except PyExc ConnectionInfo) : InitiateOutcome :=
  let prov := pyLower provider
  let existing := findIntegration db user_id prov
  match existing with
  | some ex =>
    if ex.status = "active" ∧ force_reauth = false then
      { result := .error
          (.valueError ("User already has an active " ++ prov ++ " connection")),
        db := db, sessions := sessions, reachedPlatformCall := false }
    else
      if force_reauth then
        initiateConnectionRest (deleteFirstIntegration db user_id prov)
          sessions user_id prov none redirect_url freshSessionId now
          wrapperOutcome
      else
        initiateConnectionRest db sessions user_id prov (some ex) redirect_url
          freshSessionId now wrapperOutcome
  | none =>
    initiateConnectionRest db sessions user_id prov none redirect_url
      freshSessionId now wrapperOutcome

/-! ## `IntegrationService.complete_connection` (lines 283-329) -/

structure CompleteResponse where
  provider : String
  status : String
  connected_email : Option String
deriving DecidableEq, Repr

/-- `complete_connection(user_id, provider, connected_email)`: one
`update_one` with `upsert=True` whose `$set` always contains
`"connected_email": connected_email` (the argument, possibly `None`). -/
def complete_connection (db : List IntegrationRecord)
    (user_id provider : String) (connected_email : Option String) (now : Nat) :
    List IntegrationRecord × CompleteResponse :=
  let prov := pyLower provider
  let entity_id := "user_" ++ user_id
  let setFields := fun (r : IntegrationRecord) =>
    { r with status := "active", connected_email := connected_email,
             updated_at := now, composio_entity_id := some entity_id }
  let inserted : IntegrationRecord :=
    { user_id := user_id, provider := prov,
      composio_entity_id := some entity_id, composio_connection_id := none,
      status := "active", connected_email := connected_email,
      created_at := now, updated_at := now }
  (updateOneUpsert db user_id prov setFields inserted,
   { provider := prov, status := "active", connected_email := connected_email })

/-! ## `IntegrationService.execute_tool` (lines 391-428) and the composio
oracle for it -/

/-- The dict `ComposioService.execute_action` returns: always `success` plus
either `result` or `error` (both exception arms are caught there). -/
structure ExecResult where
  success : Bool
  result : Option Json
  error : Option String

/-- The live platform, as `execute_tool` consults it: `get_connection`
(entity id, provider → connection or absent) and `execute_action`. -/
structure ComposioOracle where
  getConnection : String → String → Option ConnectionInfo
  executeAction : String → String → Json → ExecResult

/-- `provider = action.split("_")[0].lower()` (line 409). -/
def providerOfAction (action : String) : String :=
  pyLower ((pySplitOn action "_").headD "")

/-- Lines 411-416: entity id from the stored record's `composio_entity_id`
when a record exists and carries one, else `"user_" + user_id`. -/
def resolveEntityId (db : List IntegrationRecord) (user_id prov : String) :
    String :=
  match findIntegration db user_id prov with
  | some r => r.composio_entity_id.getD ("user_" ++ user_id)
  | none => "user_" ++ user_id

/-- `IntegrationService.execute_tool(user_id, action, params)`. -/
def execute_tool (oracle : ComposioOracle) (db : List IntegrationRecord)
    (user_id action : String) (params : Json) : ExecResult :=
  let prov := providerOfAction action
  let entity_id := resolveEntityId db user_id prov
  match oracle.getConnection entity_id prov with
  | none =>
    { success := false, result := none,
      error := some ("User does not have " ++ prov ++
        " connected. Please connect first.") }
  | some _ => oracle.executeAction entity_id action params

/-! ## URL handling for the OAuth callback (`api/integrations.py`, 152-253)

`urlparse`/`parse_qs`/`urlencode`/`urlunparse` are modelled structurally:

* a URL string is split into scheme / netloc / path / query / fragment;
* `parse_qs` with its defaults drops parameters with a blank value and
  percent-decodes nothing in our token-only value domain;
* the re-encoded redirect target keeps its query as the merged key-value
  list (`urlencode` of single-valued, token-only parameters is injective,
  so the list is the faithful observable).  Queries with duplicate keys are
  outside the model (Python would group them into lists and then stringify
  the list); the theorems carry a no-duplicate-keys hypothesis. -/

/-- Split at the first occurrence of `sep`; the whole string and `""` when
`sep` does not occur. -/
def splitFirst (s sep : String) : String × String :=
  match pySplitOn s sep with
  | [] => (s, "")
  | [x] => (x, "")
  | x :: rest => (x, String.intercalate sep rest)

structure UrlParts where
  scheme : String
  netloc : String
  path : String
  query : String
  fragment : String
deriving DecidableEq, Repr

/-- `urllib.parse.urlparse`, restricted to the URL shapes the callback
handles: an optional `scheme://netloc` head, then path, `?query`,
`#fragment`. -/
def urlparse (s : String) : UrlParts :=
  let sf := splitFirst s "#"
  let sq := splitFirst sf.1 "?"
  if (pySplitOn sq.1 "://").length ≥ 2 then
    let sn := splitFirst sq.1 "://"
    match pySplitOn sn.2 "/" with
    | [] => { scheme := sn.1, netloc := "", path := "",
              query := sq.2, fragment := sf.2 }
    | [h] => { scheme := sn.1, netloc := h, path := "",
               query := sq.2, fragment := sf.2 }
    | h :: t => { scheme := sn.1, netloc := h,
                  path := "/" ++ String.intercalate "/" t,
                  query := sq.2, fragment := sf.2 }
  else
    { scheme := "", netloc := "", path := sq.1, query := sq.2,
      fragment := sf.2 }

/-- `urllib.parse.parse_qs` with defaults, on single-valued token queries:
split on `&`, split each piece at its first `=`, drop pieces without `=` and
pieces with a blank value. -/
def parse_qs_pairs (q : String) : List (String × String) :=
  (pySplitOn q "&").filterMap (fun kv =>
    match pySplitOn kv "=" with
    | [] => none
    | [_] => none
    | k :: rest =>
      let v := String.intercalate "=" rest
      if v = "" then none else some (k, v))

/-- `existing_params.update(params)` on a Python dict: per new pair, replace
the binding of its key in place or append it. -/
def dictUpdate (base ps : List (String × String)) : List (String × String) :=
  ps.foldl (fun acc p => assocSet acc p.1 p.2) base

/-- The redirect target the callback builds with `urlunparse`, kept
structurally (query as the merged parameter list). -/
structure RedirectTarget where
  scheme : String
  netloc : String
  path : String
  query : List (String × String)
  fragment : String
deriving DecidableEq, Repr

/-- `append_params(url, params)` (integrations.py, 211-220). -/
def append_params (url : String) (ps : List (String × String)) :
    RedirectTarget :=
  let u := urlparse url
  { scheme := u.scheme, netloc := u.netloc, path := u.path,
    query := dictUpdate (parse_qs_pairs u.query) ps, fragment := u.fragment }

/-- The query parameters of `GET /api/integrations/callback`. -/
structure CallbackQuery where
  code : Option String
  state : Option String
  status : Option String
  connectedAccountId : Option String
  appName : Option String
  error : Option String
  error_description : Option String
  session_id : Option String
deriving DecidableEq, Repr

/-- Python truthiness of an optional string parameter. -/
def optTruthy (o : Option String) : Bool :=
  match o with
  | some s => ¬ s = ""
  | none => false

/-- Lines 188-208: resolve the downstream redirect URL — the stored session's
`redirect_url` when a session id is supplied and found (consuming the
session), else the configured `OAUTH_REDIRECT_BASE`; then prepend `https://`
when the result lacks an explicit scheme. -/
def resolveFinalRedirect (sessions : List OAuthSession)
    (session_id : Option String) (base : String) :
    String × List OAuthSession :=
  let looked :=
    if optTruthy session_id then
      get_oauth_session sessions (session_id.getD "")
    else (none, sessions)
  let f0 :=
    match looked.1 with
    | some s => s.redirect_url
    | none => ""
  let f1 := if f0 = "" then base else f0
  let f2 :=
    if ¬ f1 = "" ∧
        ¬ (pyStartsWith f1 "http://" ∨ pyStartsWith f1 "https://") then
      "https://" ++ f1
    else f1
  (f2, looked.2)

/-- A `RedirectResponse` from the callback (FastAPI default status 307),
together with the collections afterwards. -/
structure CallbackResponse where
  httpStatus : Nat
  location : RedirectTarget
  db : List IntegrationRecord
  sessions : List OAuthSession
deriving Repr

/-- `oauth_callback` (integrations.py, 152-253). -/
def oauth_callback (sessions : List OAuthSession)
    (db : List IntegrationRecord) (q : CallbackQuery) (base : String)
    (now : Nat) : CallbackResponse :=
  let resolved := resolveFinalRedirect sessions q.session_id base
  if optTruthy q.error then
    let e := q.error.getD ""
    let msg :=
      match q.error_description with
      | some d => if ¬ d = "" then d else e
      | none => e
    { httpStatus := 307,
      location := append_params resolved.1 [("error", e), ("message", msg)],
      db := db, sessions := resolved.2 }
  else if q.status = some "success" ∧ optTruthy q.appName then
    let app := q.appName.getD ""
    let db' :=
      if optTruthy q.connectedAccountId then
        match findIntegrationByConnectionId db (q.connectedAccountId.getD "") with
        | some integ => (complete_connection db integ.user_id app none now).1
        | none => db
      else db
    { httpStatus := 307,
      location := append_params resolved.1
        [("status", "success"), ("appName", app)],
      db := db', sessions := resolved.2 }
  else
    { httpStatus := 307,
      location := append_params resolved.1 [("status", "callback_received")],
      db := db, sessions := resolved.2 }

/-! ## HTTP surface (`main.py` plus the two mounted routers)

`main.py` mounts exactly the integrations router and the tools router and
defines `GET /` and `GET /health` on the application itself.  Each route's
authentication is whether it declares `Depends(verify_api_key)`. -/

inductive AuthKind where
  | apiKey : AuthKind
  | noAuth : AuthKind
deriving DecidableEq, Repr

structure Endpoint where
  method : String
  path : String
  auth : AuthKind
deriving DecidableEq, Repr

/-- Every route of the FastAPI app assembled in `main.py`. -/
def appEndpoints : List Endpoint :=
  [ { method := "GET", path := "/api/integrations", auth := .apiKey },
    { method := "GET", path := "/api/integrations/connected", auth := .apiKey },
    { method := "POST", path := "/api/integrations/connect", auth := .apiKey },
    { method := "GET", path := "/api/integrations/callback", auth := .noAuth },
    { method := "POST", path := "/api/integrations/disconnect", auth := .apiKey },
    { method := "GET", path := "/api/integrations/{provider}/status", auth := .apiKey },
    { method := "GET", path := "/api/tools", auth := .apiKey },
    { method := "POST", path := "/api/tools/execute", auth := .apiKey },
    { method := "GET", path := "/api/tools/actions/{provider}", auth := .apiKey },
    { method := "GET", path := "/api/tools/schema/{action}", auth := .apiKey },
    { method := "GET", path := "/api/tools/health", auth := .noAuth },
    { method := "GET", path := "/", auth := .noAuth },
    { method := "GET", path := "/health", auth := .noAuth } ]

/-- The HTTP status an endpoint produces when called with the given
`X-API-Key` header (or none) under the given configured agent key, before
its handler body runs.  A missing required header is a FastAPI validation
422; an unauthenticated endpoint proceeds to its handler, whose status is
200 (307 for the redirect-only callback). -/
def statusForRequest (e : Endpoint) (agent_api_key : String)
    (header : Option String) : Nat :=
  match e.auth with
  | .noAuth => if e.path = "/api/integrations/callback" then 307 else 200
  | .apiKey =>
    match header with
    | none => 422
    | some h =>
      match verify_api_key agent_api_key h with
      | .httpError s _ => s
      | .ok _ => 200

/-- A header/configuration situation in which the caller does not present a
valid `X-API-Key`: either no header, or the header differs from the
configured key, or no key is configured server-side at all. -/
def invalidKeySituation (agent_api_key : String)
    (header : Option String) : Prop :=
  agent_api_key = "" ∨ header = none ∨ ¬ header = some agent_api_key

instance (k : String) (h : Option String) :
    Decidable (invalidKeySituation k h) := by
  unfold invalidKeySituation; infer_instance

/-! ## Connect and execute endpoints -/

/-- `SUPPORTED_INTEGRATIONS` (config.py): the keys of
`tools_config.ENABLED_TOOLS`. -/
def SUPPORTED_INTEGRATIONS : List String :=
  ["gmail", "slack", "whatsapp", "googledocs", "googlesheets", "googledrive",
   "googlebigquery", "googlemeet", "googleads", "googlemaps", "zoom",
   "youtube", "supabase", "linkedin", "facebook", "stripe"]

/-- `POST /api/integrations/connect` (integrations.py, 104-149): unsupported
provider → 400; `ValueError` from the service → 400; any other exception →
500; success → 200. -/
def connectEndpointStatus (provider : String)
    (serviceResult : Except PyExc InitiateResponse) : Nat :=
  if ¬ pyLower provider ∈ SUPPORTED_INTEGRATIONS then 400
  else
    match serviceResult with
    | .ok _ => 200
    | .error (.valueError _) => 400
    | .error _ => 500

/-- The body of `ToolExecuteResponse` (tools.py). -/
structure ToolExecuteResponse where
  success : Bool
  result : Option Json
  error : Option String

/-- `POST /api/tools/execute` (tools.py, 53-92): the handler body after
authentication.  The service call's outcome is either its returned dict or a
raised exception; both arms of the `try` produce an HTTP 200 with a
`ToolExecuteResponse` body. -/
def executeToolEndpoint (outcome : Except PyExc ToolExecuteResponse) :
    Nat × ToolExecuteResponse :=
  match outcome with
  | .ok r => (200, r)
  | .error e =>
    let detail :=
      match e with
      | .valueError m => m
      | .typeError m => m
      | .attributeError m => m
    (200, { success := false, result := none,
            error := some ("Execution failed: " ++ detail) })

/-- The `ToolExecuteResponse` built from the service's returned dict
(tools.py, 82-86). -/
def execResultToResponse (r : ExecResult) : ToolExecuteResponse :=
  { success := r.success, result := r.result, error := r.error }

/-! ## Tool-server config builder (`mcp_config.py`, 11-62)

The template file (`mcp_multi.json`) is `{"mcpServers": {name: {command,
args}}}`; a missing or malformed file is the `none` template. -/

structure McpServer where
  command : String
  args : List String
deriving DecidableEq, Repr

structure McpConfig where
  mcpServers : List (String × McpServer)
deriving DecidableEq, Repr

/-- Step 2 of `build_mcp_config` (mcp_config.py, 36-42): in the
`filesystem` server's args, replace the literal substring
`{FILESYSTEM_BASE_PATH}` with the configured base path. -/
def fsStep (servers : List (String × McpServer)) (fsPath : String) :
    List (String × McpServer) :=
  match assocGet servers "filesystem" with
  | some fs =>
    let newArgs := fs.args.map
      (fun a => pyReplace a "{FILESYSTEM_BASE_PATH}" fsPath)
    assocSet servers "filesystem" { fs with args := newArgs }
  | none => servers

/-- Step 3 of `build_mcp_config` (mcp_config.py, 44-60): when Google Drive is
requested and a `gdrive` entry exists, replace the literal substring
`{ACCESS_TOKEN}` in its args with `credentials.token` (dropping the entry if
the token access fails, modelled as `none`); when not requested, delete any
`gdrive` entry. -/
def gdriveStep (servers : List (String × McpServer)) (tok : Option String)
    (inc : Bool) : List (String × McpServer) :=
  match inc with
  | true =>
    match assocGet servers "gdrive" with
    | some g =>
      match tok with
      | some t =>
        let newArgs := g.args.map (fun a => pyReplace a "{ACCESS_TOKEN}" t)
        assocSet servers "gdrive" { g with args := newArgs }
      | none => assocDrop servers "gdrive"
    | none => servers
  | false => assocDrop servers "gdrive"

/-- `build_mcp_config(credentials, include_gdrive)`: load the template
(missing/malformed → `{"mcpServers": {}}`), then apply the filesystem and
gdrive substitution steps in order. -/
def build_mcp_config (template : Option McpConfig)
    (filesystem_base_path : String) (credentials_token : Option String)
    (include_gdrive : Bool) : McpConfig :=
  match template with
  | none => { mcpServers := [] }
  | some config =>
    { mcpServers := gdriveStep (fsStep config.mcpServers filesystem_base_path)
        credentials_token include_gdrive }

/-- Modelled from the spec: the environment-variable expansion §4.4 ascribes
to the builder ("substituting environment-variable references of the shell
`${VAR}`/`$VAR` form using the process environment; values not present in the
environment are left unexpanded"), which no function under `src/` implements.
Characters are consumed left to right with a fuel bound. -/
def specExpandVarsAux (env : List (String × String)) :
    Nat → List Char → List Char
  | 0, cs => cs
  | _ + 1, [] => []
  | fuel + 1, '$' :: '{' :: rest =>
    let name := rest.takeWhile (fun c => ¬ c = '}')
    let after := rest.dropWhile (fun c => ¬ c = '}')
    (match after with
     | '}' :: tail =>
       (match assocGet env (String.mk name) with
        | some v => v.toList ++ specExpandVarsAux env fuel tail
        | none =>
          '$' :: '{' :: (name ++ '}' :: specExpandVarsAux env fuel tail))
     | _ => '$' :: '{' :: specExpandVarsAux env fuel rest)
  | fuel + 1, '$' :: rest =>
    let name := rest.takeWhile (fun c => c.isAlphanum ∨ c = '_')
    if name.isEmpty then '$' :: specExpandVarsAux env fuel rest
    else
      (match assocGet env (String.mk name) with
       | some v => v.toList ++ specExpandVarsAux env fuel (rest.drop name.length)
       | none => '$' :: (name ++ specExpandVarsAux env fuel (rest.drop name.length)))
  | fuel + 1, c :: rest => c :: specExpandVarsAux env fuel rest

/-- Modelled from the spec: expansion of one string value. -/
def specExpandVars (env : List (String × String)) (s : String) : String :=
  String.mk (specExpandVarsAux env (s.length + 1) s.toList)

/-! ## Claim theorems -/

/-- Claim C10: `verify_user_token` raises an authentication error (HTTP 401)
exactly when the `Authorization` header does not start with `"Bearer "` or the
remainder after that 7-character prefix is empty; otherwise it returns the
remainder — the raw token string itself — as the user id, performing no
decoding, signature check, or expiry check. -/
theorem c10_verify_user_token_spec (a : String) :
    ((∃ d, verify_user_token a = .httpError 401 d) ↔
      (¬ pyStartsWith a "Bearer " ∨ pyDrop a 7 = "")) ∧
    (pyStartsWith a "Bearer " → ¬ pyDrop a 7 = "" →
      verify_user_token a = .ok (pyDrop a 7)) := by
  unfold verify_user_token
  by_cases h1 : pyStartsWith a "Bearer "
  · by_cases h2 : pyDrop a 7 = "" <;> simp [h1, h2]
  · simp [h1]

/-- Witness for C10 at the header `"Bearer tok-123"`. -/
theorem c10_witness : verify_user_token "Bearer tok-123" = .ok "tok-123" := by
  have h := (c10_verify_user_token_spec "Bearer tok-123").2 (by decide) (by decide)
  rw [show pyDrop "Bearer tok-123" 7 = "tok-123" from by decide] at h
  exact h

/-- Claim C2: for every `OAuthSession` created by `store_oauth_session` under
a session id not already present, the first `get_oauth_session` with that id
returns the full stored record (redirect URL included) and removes it in the
same operation (`find_one_and_delete`), leaving the collection as it was
before the store; a subsequent call on that state returns an absent result
and changes nothing, so every later call is also absent. -/
theorem c2_oauth_session_one_time_use (sessions : List OAuthSession)
    (sid url uid prov : String) (now : Nat)
    (hfresh : ∀ s ∈ sessions, s.session_id ≠ sid) :
    get_oauth_session (store_oauth_session sessions sid url uid prov now) sid =
      (some { session_id := sid, redirect_url := url, user_id := uid,
              provider := prov, created_at := now }, sessions) ∧
    get_oauth_session sessions sid = (none, sessions) := by
  constructor
  · exact findOneAndDeleteSession_append_fresh sessions _ hfresh
  · exact findOneAndDeleteSession_of_fresh sessions sid hfresh

/-- Witness for C2: a concrete store-then-retrieve round. -/
theorem c2_witness :
    get_oauth_session
        (store_oauth_session [] "sid-1" "https://app.example.com/done" "u1"
          "gmail" 0) "sid-1" =
      (some { session_id := "sid-1",
              redirect_url := "https://app.example.com/done",
              user_id := "u1", provider := "gmail", created_at := 0 }, []) ∧
    get_oauth_session ([] : List OAuthSession) "sid-1" = (none, []) :=
  c2_oauth_session_one_time_use [] "sid-1" "https://app.example.com/done"
    "u1" "gmail" 0 (by simp)

/-- Claim C7: saving a token object for an email and loading the same email
yields exactly the saved token object, and `load_tokens` yields an absent
value whenever the email's file is missing or fails to parse as JSON. -/
theorem c7_token_store_roundtrip (fs : TokenFS) (email : String)
    (tokens : Json) (email2 : String) :
    load_tokens (save_tokens fs email tokens) email = .ok (some tokens) ∧
    (assocGet fs (get_token_file email2) = none →
      load_tokens fs email2 = .ok none) ∧
    (assocGet fs (get_token_file email2) = some .unparseable →
      load_tokens fs email2 = .ok none) := by
  refine ⟨?_, fun h => ?_, fun h => ?_⟩
  · unfold load_tokens save_tokens
    rw [assocGet_assocSet_self]
    simp [jsonObjGet, assocGet]
  · unfold load_tokens
    rw [h]
  · unfold load_tokens
    rw [h]

/-- Witness for C7: a concrete save/load round and a missing-file load. -/
theorem c7_witness :
    load_tokens (save_tokens [] "a@b.example" (.obj [("token", .str "T")]))
        "a@b.example" = .ok (some (.obj [("token", .str "T")])) ∧
    load_tokens [] "x@y.example" = .ok none :=
  ⟨(c7_token_store_roundtrip [] "a@b.example" (.obj [("token", .str "T")])
      "x@y.example").1,
   (c7_token_store_roundtrip [] "a@b.example" (.obj [("token", .str "T")])
      "x@y.example").2.1 rfl⟩

/-- Claim C1 (code bug): the claim — and the intent documented by the call
site's comment, by spec §4.13/§4.14 and by
`tests/test_oauth_session.py::TestSessionIdInCallback` — is that the service
passes the fresh session id to the platform wrapper, which appends it to the
service's own callback URL.  The code cannot do this: the wrapper declares no
`session_id` parameter, so the call at `integration_service.py:218` raises
`TypeError` for every request that reaches it (here: a connect for `gmail`
with a redirect URL and no prior record), and the callback URL the wrapper
computes at `composio_service.py:87` carries no session id. -/
theorem c1_session_id_keyword_rejected :
    pythonKeywordBindOk composioInitiateConnectionParams
        integrationServiceInitiateCallKwargs = false ∧
    ¬ "session_id" ∈ composioInitiateConnectionParams ∧
    (initiate_connection [] [] "user1" "gmail"
        (some "https://client.example.com/after") false "sid-1" 0
        (.ok { auth_url := some "https://composio.example/auth",
               connection_id := some "conn-1",
               status := some "pending" })).result
      = .error (.typeError
          "ComposioService.initiate_connection() got an unexpected keyword argument: session_id") ∧
    composioCallbackUrl none "http://localhost:8001"
      = "http://localhost:8001/api/integrations/callback" := by
  refine ⟨by decide, by decide, ?_, by decide⟩
  rfl

/-- Helper for claim C4: what an API-key-guarded route answers when the
caller does not present the configured key. -/
theorem statusForRequest_apiKey (e : Endpoint) (hA : e.auth = .apiKey) :
    (∀ k, statusForRequest e k none = 422) ∧
    (∀ k h, ¬ k = "" → ¬ h = k → statusForRequest e k (some h) = 401) ∧
    (∀ h, statusForRequest e "" (some h) = 500) ∧
    (∀ k hdr, invalidKeySituation k hdr →
      ¬ statusForRequest e k hdr / 100 = 2) := by
  refine ⟨fun k => by simp [statusForRequest, hA],
          fun k h hk hh => by simp [statusForRequest, hA, verify_api_key, hk, hh],
          fun h => by simp [statusForRequest, hA, verify_api_key],
          fun k hdr hinv => ?_⟩
  match hdr with
  | none => simp [statusForRequest, hA]
  | some h =>
    by_cases hk : k = ""
    · simp [statusForRequest, hA, verify_api_key, hk]
    · by_cases hh : h = k
      · exfalso
        rcases hinv with h1 | h2 | h3
        · exact hk h1
        · exact Option.noConfusion h2
        · exact h3 (by rw [hh])
      · simp [statusForRequest, hA, verify_api_key, hk, hh]

/-- Counterexample to claim C4 as stated: `GET /health` (defined directly on
the FastAPI app in `main.py`) is an endpoint of the service's HTTP API, is
neither `GET /api/integrations/callback` nor `GET /api/tools/health`, and
still answers HTTP 200 to a request carrying no `X-API-Key` header. -/
theorem c4_counterexample :
    ({ method := "GET", path := "/health", auth := .noAuth } : Endpoint)
        ∈ appEndpoints ∧
    ¬ ("/health" = "/api/integrations/callback" ∨
       "/health" = "/api/tools/health") ∧
    invalidKeySituation "secret-key" none ∧
    statusForRequest { method := "GET", path := "/health", auth := .noAuth }
        "secret-key" none = 200 := by
  refine ⟨by decide, by decide, ?_, by decide⟩
  exact Or.inr (Or.inl rfl)

/-- Claim C4 (amended): every endpoint of the service's HTTP API except
`GET /api/integrations/callback`, `GET /api/tools/health`, and the root
(`GET /`) and liveness (`GET /health`) endpoints defined on the application
itself returns a non-2xx status when called without a valid `X-API-Key`: 422
when the header is missing, 401 "Invalid API key" when it is present but
differs from the configured agent key, and 500 when no agent key is
configured server-side. -/
theorem c4_amended_api_key_enforcement (e : Endpoint) (he : e ∈ appEndpoints)
    (hx : ¬ e.path ∈ ["/api/integrations/callback", "/api/tools/health",
                      "/", "/health"]) :
    (∀ k, statusForRequest e k none = 422) ∧
    (∀ k h, ¬ k = "" → ¬ h = k → statusForRequest e k (some h) = 401) ∧
    (∀ h, statusForRequest e "" (some h) = 500) ∧
    (∀ k hdr, invalidKeySituation k hdr →
      ¬ statusForRequest e k hdr / 100 = 2) := by
  fin_cases he <;>
    first
    | exact absurd (by decide) hx
    | exact statusForRequest_apiKey _ rfl

/-- Witness for C4 (amended) at `POST /api/tools/execute` with a wrong key,
a missing header, and an unconfigured server key. -/
theorem c4_witness :
    statusForRequest
        { method := "POST", path := "/api/tools/execute", auth := .apiKey }
        "agent-key" (some "wrong-key") = 401 ∧
    statusForRequest
        { method := "POST", path := "/api/tools/execute", auth := .apiKey }
        "agent-key" none = 422 ∧
    statusForRequest
        { method := "POST", path := "/api/tools/execute", auth := .apiKey }
        "" (some "anything") = 500 := by
  have h := c4_amended_api_key_enforcement
    { method := "POST", path := "/api/tools/execute", auth := .apiKey }
    (by decide) (by decide)
  exact ⟨h.2.1 "agent-key" "wrong-key" (by decide) (by decide),
         h.1 "agent-key", h.2.2.1 "anything"⟩

/-- Claim C3: the `POST /api/tools/execute` handler returns HTTP 200 both
when the service call returns and when it raises (no execution failure
becomes an HTTP error status); and when the platform reports no live
connection for the provider derived from the action name's prefix, the
service's result is `success = false` with a non-empty error string. -/
theorem c3_execute_tool_uniform_contract (oracle : ComposioOracle)
    (db : List IntegrationRecord) (user_id action : String) (params : Json) :
    (executeToolEndpoint (.ok (execResultToResponse
        (execute_tool oracle db user_id action params)))).1 = 200 ∧
    (∀ e, (executeToolEndpoint (.error e)).1 = 200) ∧
    (oracle.getConnection
          (resolveEntityId db user_id (providerOfAction action))
          (providerOfAction action) = none →
      (execute_tool oracle db user_id action params).success = false ∧
      ∃ msg, (execute_tool oracle db user_id action params).error = some msg ∧
        ¬ msg = "") := by
  refine ⟨rfl, fun e => rfl, fun hnone => ?_⟩
  unfold execute_tool
  simp only [hnone]
  refine ⟨by simp, "User does not have " ++ providerOfAction action ++
    " connected. Please connect first.", by simp, fun hmsg => ?_⟩
  have hlen := congrArg String.length hmsg
  simp [String.length_append] at hlen
  exact absurd hlen.2 (by decide)

/-- Witness for C3: a platform with no connections, an empty integration
store, and the action `GMAIL_SEND_EMAIL`. -/
theorem c3_witness :
    (executeToolEndpoint (.ok (execResultToResponse
        (execute_tool
          { getConnection := fun _ _ => none,
            executeAction := fun _ _ _ =>
              { success := true, result := none, error := none } }
          [] "u1" "GMAIL_SEND_EMAIL" Json.null)))).1 = 200 ∧
    (execute_tool
        { getConnection := fun _ _ => none,
          executeAction := fun _ _ _ =>
            { success := true, result := none, error := none } }
        [] "u1" "GMAIL_SEND_EMAIL" Json.null).success = false ∧
    ∃ msg, (execute_tool
        { getConnection := fun _ _ => none,
          executeAction := fun _ _ _ =>
            { success := true, result := none, error := none } }
        [] "u1" "GMAIL_SEND_EMAIL" Json.null).error = some msg ∧
      ¬ msg = "" := by
  have h := c3_execute_tool_uniform_contract
    { getConnection := fun _ _ => none,
      executeAction := fun _ _ _ =>
        { success := true, result := none, error := none } }
    [] "u1" "GMAIL_SEND_EMAIL" Json.null
  exact ⟨h.1, (h.2.2 rfl).1, (h.2.2 rfl).2⟩

/-- Claim C5: when the stored integration record for the user and the
lower-cased provider is `active` and `force_reauth` is false,
`IntegrationService.initiate_connection` raises the domain error
`"User already has an active <provider> connection"` before reaching the
platform call site, leaving both collections unchanged, and
`POST /api/integrations/connect` maps the outcome to HTTP 400. -/
theorem c5_already_active_rejected (db : List IntegrationRecord)
    (sessions : List OAuthSession) (user_id provider : String)
    (redirect_url : Option String) (fresh : String) (now : Nat)
    (wrapperOutcome : Except PyExc ConnectionInfo) (ex : IntegrationRecord)
    (hfind : findIntegration db user_id (pyLower provider) = some ex)
    (hact : ex.status = "active") :
    (initiate_connection db sessions user_id provider redirect_url false
        fresh now wrapperOutcome).result =
      .error (.valueError
        ("User already has an active " ++ pyLower provider ++ " connection")) ∧
    (initiate_connection db sessions user_id provider redirect_url false
        fresh now wrapperOutcome).db = db ∧
    (initiate_connection db sessions user_id provider redirect_url false
        fresh now wrapperOutcome).sessions = sessions ∧
    (initiate_connection db sessions user_id provider redirect_url false
        fresh now wrapperOutcome).reachedPlatformCall = false ∧
    connectEndpointStatus provider
      (initiate_connection db sessions user_id provider redirect_url false
        fresh now wrapperOutcome).result = 400 := by
  have hmain :
      initiate_connection db sessions user_id provider redirect_url false
        fresh now wrapperOutcome =
      { result := .error (.valueError
          ("User already has an active " ++ pyLower provider ++ " connection")),
        db := db, sessions := sessions, reachedPlatformCall := false } := by
    unfold initiate_connection
    simp only [hfind, hact]
    simp
  rw [hmain]
  refine ⟨rfl, rfl, rfl, rfl, ?_⟩
  unfold connectEndpointStatus
  split <;> rfl

/-- Witness for C5: one active `gmail` record for `u1`. -/
theorem c5_witness :
    (initiate_connection
        [{ user_id := "u1", provider := "gmail",
           composio_entity_id := some "user_u1",
           composio_connection_id := some "conn-1", status := "active",
           connected_email := some "u1@example.com", created_at := 0,
           updated_at := 0 }]
        [] "u1" "gmail" (some "https://app.example.com/done") false "sid-1" 1
        (.ok { auth_url := none, connection_id := none,
               status := none })).result =
      .error (.valueError "User already has an active gmail connection") ∧
    connectEndpointStatus "gmail"
      (initiate_connection
        [{ user_id := "u1", provider := "gmail",
           composio_entity_id := some "user_u1",
           composio_connection_id := some "conn-1", status := "active",
           connected_email := some "u1@example.com", created_at := 0,
           updated_at := 0 }]
        [] "u1" "gmail" (some "https://app.example.com/done") false "sid-1" 1
        (.ok { auth_url := none, connection_id := none,
               status := none })).result = 400 := by
  have h := c5_already_active_rejected
    [{ user_id := "u1", provider := "gmail",
       composio_entity_id := some "user_u1",
       composio_connection_id := some "conn-1", status := "active",
       connected_email := some "u1@example.com", created_at := 0,
       updated_at := 0 }]
    [] "u1" "gmail" (some "https://app.example.com/done") "sid-1" 1
    (.ok { auth_url := none, connection_id := none, status := none })
    { user_id := "u1", provider := "gmail",
      composio_entity_id := some "user_u1",
      composio_connection_id := some "conn-1", status := "active",
      connected_email := some "u1@example.com", created_at := 0,
      updated_at := 0 }
    (by decide) rfl
  refine ⟨?_, h.2.2.2.2⟩
  have h1 := h.1
  rw [show "User already has an active " ++ pyLower "gmail" ++ " connection" =
    "User already has an active gmail connection" from by decide] at h1
  exact h1

/-- Helper for claim C8: the first `(user_id, provider)` match after an
upserting `update_one` is the rewritten first match, or the inserted record
when nothing matched. -/
theorem findIntegration_updateOneUpsert (db : List IntegrationRecord)
    (uid prov : String) (f : IntegrationRecord → IntegrationRecord)
    (ins : IntegrationRecord)
    (hf : ∀ r, r.user_id = uid → r.provider = prov →
      (f r).user_id = uid ∧ (f r).provider = prov)
    (hins : ins.user_id = uid ∧ ins.provider = prov) :
    findIntegration (updateOneUpsert db uid prov f ins) uid prov =
      some (match findIntegration db uid prov with
            | some r => f r
            | none => ins) := by
  induction db with
  | nil => simp [updateOneUpsert, findIntegration, hins.1, hins.2]
  | cons r rest ih =>
    by_cases hr : r.user_id = uid ∧ r.provider = prov
    · have hfr := hf r hr.1 hr.2
      simp [updateOneUpsert, findIntegration, hr, hfr.1, hfr.2]
    · simp [updateOneUpsert, findIntegration, hr, ih]

/-- Counterexample to claim C8 as stated: a record with a stored
`connected_email` on which `complete_connection` is called without a
`connected_email` argument ends up with an absent `connected_email` — the
`$set` document always contains `"connected_email": connected_email`, so the
previous value is overwritten with `None` rather than left unchanged. -/
theorem c8_counterexample :
    (findIntegration (complete_connection
        [{ user_id := "u1", provider := "gmail",
           composio_entity_id := some "user_u1",
           composio_connection_id := none, status := "pending",
           connected_email := some "old@example.com",
           created_at := 0, updated_at := 0 }] "u1" "gmail" none 5).1
      "u1" "gmail").map IntegrationRecord.connected_email = some none ∧
    ¬ ((some none : Option (Option String)) =
        some (some "old@example.com")) := by
  refine ⟨by decide, by decide⟩

/-- Claim C8 (amended): `complete_connection(user_id, provider,
connected_email)` upserts the integration record for the pair to status
`active` with entity id `"user_" + user_id`, and always overwrites the
record's `connected_email` with the supplied argument — set to it when one
is given, cleared to an absent value when none is given. -/
theorem c8_amended_complete_connection (db : List IntegrationRecord)
    (user_id provider : String) (connected_email : Option String)
    (now : Nat) :
    ∃ r, findIntegration
        (complete_connection db user_id provider connected_email now).1
        user_id (pyLower provider) = some r ∧
      r.status = "active" ∧ r.connected_email = connected_email ∧
      r.composio_entity_id = some ("user_" ++ user_id) := by
  unfold complete_connection
  simp only []
  have hres := findIntegration_updateOneUpsert db user_id (pyLower provider)
    (fun r =>
      { user_id := r.user_id, provider := r.provider,
        composio_entity_id := some ("user_" ++ user_id),
        composio_connection_id := r.composio_connection_id,
        status := "active", connected_email := connected_email,
        created_at := r.created_at, updated_at := now })
    { user_id := user_id, provider := pyLower provider,
      composio_entity_id := some ("user_" ++ user_id),
      composio_connection_id := none, status := "active",
      connected_email := connected_email, created_at := now,
      updated_at := now }
    (fun r h1 h2 => ⟨h1, h2⟩) ⟨rfl, rfl⟩
  rw [hres]
  cases hfind : findIntegration db user_id (pyLower provider) with
  | none => exact ⟨_, rfl, rfl, rfl, rfl⟩
  | some r0 => exact ⟨_, rfl, rfl, rfl, rfl⟩

theorem assocGet_assocDrop_self {α : Type} (l : List (String × α))
    (k : String) : assocGet (assocDrop l k) k = none := by
  induction l with
  | nil => rfl
  | cons hd t ih =>
    by_cases h : hd.1 = k
    · simpa [assocDrop, h] using ih
    · simpa [assocDrop, assocGet, h] using ih

theorem assocGet_assocDrop_ne {α : Type} (l : List (String × α))
    (k k' : String) (h : k ≠ k') : assocGet (assocDrop l k') k = assocGet l k := by
  induction l with
  | nil => rfl
  | cons hd t ih =>
    by_cases h1 : hd.1 = k'
    · have h2 : ¬ hd.1 = k := by rw [h1]; exact fun he => h he.symm
      simpa [assocDrop, assocGet, h1, h2, Ne.symm h] using ih
    · by_cases h2 : hd.1 = k
      · simp [assocDrop, assocGet, h1, h2, h]
      · simpa [assocDrop, assocGet, h1, h2] using ih

/-- Counterexample to claim C9 as stated: the builder substitutes no
environment variables.  On a template whose filesystem server has the arg
`"$HOME/workspace"`, the built configuration keeps the arg verbatim, although
the spec's own expansion rule applied with `HOME=/root` in the environment
would produce `"/root/workspace"`. -/
theorem c9_counterexample :
    (assocGet (build_mcp_config
        (some { mcpServers :=
          [("filesystem",
            { command := "npx",
              args := ["-y", "@modelcontextprotocol/server-filesystem",
                       "$HOME/workspace"] })] })
        "/base" none false).mcpServers "filesystem").map McpServer.args =
      some ["-y", "@modelcontextprotocol/server-filesystem",
            "$HOME/workspace"] ∧
    specExpandVars [("HOME", "/root")] "$HOME/workspace" = "/root/workspace" ∧
    ¬ ("$HOME/workspace" = "/root/workspace") := by
  refine ⟨by decide, by decide, by decide⟩

/-- Helper for claim C9: the filesystem step leaves the `gdrive` binding
alone. -/
theorem fsStep_get_gdrive (servers : List (String × McpServer))
    (fsPath : String) :
    assocGet (fsStep servers fsPath) "gdrive" = assocGet servers "gdrive" := by
  unfold fsStep
  cases hfs : assocGet servers "filesystem" with
  | none => rfl
  | some fs => exact assocGet_assocSet_ne _ _ _ _ (by decide)

/-- Helper for claim C9: the filesystem step rewrites the `filesystem`
binding by literal replacement of `{FILESYSTEM_BASE_PATH}`. -/
theorem fsStep_get_filesystem (servers : List (String × McpServer))
    (fsPath : String) (fs : McpServer)
    (h : assocGet servers "filesystem" = some fs) :
    assocGet (fsStep servers fsPath) "filesystem" =
      some { fs with args := fs.args.map (fun a => pyReplace a "{FILESYSTEM_BASE_PATH}" fsPath) } := by
  unfold fsStep
  simp only [h]
  exact assocGet_assocSet_self _ _ _

/-- Helper for claim C9: the gdrive step leaves the `filesystem` binding
alone. -/
theorem gdriveStep_get_filesystem (servers : List (String × McpServer))
    (tok : Option String) (inc : Bool) :
    assocGet (gdriveStep servers tok inc) "filesystem" =
      assocGet servers "filesystem" := by
  unfold gdriveStep
  cases inc with
  | false => exact assocGet_assocDrop_ne _ _ _ (by decide)
  | true =>
    cases hg : assocGet servers "gdrive" with
    | none => rfl
    | some g =>
      cases tok with
      | none => exact assocGet_assocDrop_ne _ _ _ (by decide)
      | some t => exact assocGet_assocSet_ne _ _ _ _ (by decide)

/-- Helper for claim C9: without `include_gdrive`, the gdrive entry is
removed. -/
theorem gdriveStep_get_gdrive_not_included (servers : List (String × McpServer))
    (tok : Option String) :
    assocGet (gdriveStep servers tok false) "gdrive" = none :=
  assocGet_assocDrop_self _ _

/-- Helper for claim C9: with `include_gdrive` and a token, the gdrive args
get the literal `{ACCESS_TOKEN}` replacement. -/
theorem gdriveStep_get_gdrive_token (servers : List (String × McpServer))
    (t : String) (g : McpServer) (hg : assocGet servers "gdrive" = some g) :
    assocGet (gdriveStep servers (some t) true) "gdrive" =
      some { g with args := g.args.map (fun a => pyReplace a "{ACCESS_TOKEN}" t) } := by
  unfold gdriveStep
  simp only [hg]
  exact assocGet_assocSet_self _ _ _

/-- Helper for claim C9: with `include_gdrive` but a failing token access,
the gdrive entry is removed. -/
theorem gdriveStep_get_gdrive_no_token (servers : List (String × McpServer)) :
    assocGet (gdriveStep servers none true) "gdrive" = none := by
  unfold gdriveStep
  cases hg : assocGet servers "gdrive" with
  | none => exact hg
  | some g => exact assocGet_assocDrop_self _ _

/-- Claim C9 (amended): after loading the template the builder performs only
literal placeholder replacement, consulting no environment: a missing or
malformed template yields an empty server map; the filesystem server's args
have each literal occurrence of `{FILESYSTEM_BASE_PATH}` replaced by the
configured base path; when Google Drive is included and a token is available
the gdrive args have `{ACCESS_TOKEN}` replaced by the token; when it is not
included, or the token access fails, the gdrive entry is absent.  Shell
`${VAR}`/`$VAR` references are never expanded. -/
theorem c9_amended_literal_placeholders :
    (∀ fsPath tok inc,
      build_mcp_config none fsPath tok inc = { mcpServers := [] }) ∧
    (∀ tmpl fsPath tok inc fs,
      assocGet tmpl.mcpServers "filesystem" = some fs →
      assocGet (build_mcp_config (some tmpl) fsPath tok inc).mcpServers
          "filesystem" =
        some { fs with args := fs.args.map (fun a => pyReplace a "{FILESYSTEM_BASE_PATH}" fsPath) }) ∧
    (∀ tmpl fsPath tok,
      assocGet (build_mcp_config (some tmpl) fsPath tok false).mcpServers
        "gdrive" = none) ∧
    (∀ tmpl fsPath t g,
      assocGet tmpl.mcpServers "gdrive" = some g →
      assocGet (build_mcp_config (some tmpl) fsPath (some t) true).mcpServers
          "gdrive" =
        some { g with args := g.args.map (fun a => pyReplace a "{ACCESS_TOKEN}" t) }) ∧
    (∀ tmpl fsPath g,
      assocGet tmpl.mcpServers "gdrive" = some g →
      assocGet (build_mcp_config (some tmpl) fsPath none true).mcpServers
        "gdrive" = none) := by
  refine ⟨fun fsPath tok inc => rfl, ?_, ?_, ?_, ?_⟩
  · intro tmpl fsPath tok inc fs hfs
    show assocGet (gdriveStep (fsStep tmpl.mcpServers fsPath) tok inc)
      "filesystem" = _
    rw [gdriveStep_get_filesystem, fsStep_get_filesystem _ _ _ hfs]
  · intro tmpl fsPath tok
    show assocGet (gdriveStep (fsStep tmpl.mcpServers fsPath) tok false)
      "gdrive" = none
    exact gdriveStep_get_gdrive_not_included _ _
  · intro tmpl fsPath t g hg
    show assocGet (gdriveStep (fsStep tmpl.mcpServers fsPath) (some t) true)
      "gdrive" = _
    exact gdriveStep_get_gdrive_token _ _ _
      ((fsStep_get_gdrive tmpl.mcpServers fsPath).trans hg)
  · intro tmpl fsPath g hg
    show assocGet (gdriveStep (fsStep tmpl.mcpServers fsPath) none true)
      "gdrive" = none
    exact gdriveStep_get_gdrive_no_token _

/-- Witness for C9 (amended): a concrete template with both servers. -/
theorem c9_witness :
    assocGet (build_mcp_config
        (some { mcpServers :=
          [("filesystem",
            { command := "npx", args := ["{FILESYSTEM_BASE_PATH}"] }),
           ("gdrive",
            { command := "npx",
              args := ["--access-token", "{ACCESS_TOKEN}"] })] })
        "/base" (some "tok-1") true).mcpServers "filesystem" =
      some { command := "npx", args := ["{FILESYSTEM_BASE_PATH}"].map (fun a => pyReplace a "{FILESYSTEM_BASE_PATH}" "/base") } ∧
    assocGet (build_mcp_config
        (some { mcpServers :=
          [("filesystem",
            { command := "npx", args := ["{FILESYSTEM_BASE_PATH}"] }),
           ("gdrive",
            { command := "npx",
              args := ["--access-token", "{ACCESS_TOKEN}"] })] })
        "/base" (some "tok-1") false).mcpServers "gdrive" = none :=
  ⟨c9_amended_literal_placeholders.2.1
     { mcpServers :=
       [("filesystem", { command := "npx", args := ["{FILESYSTEM_BASE_PATH}"] }),
        ("gdrive", { command := "npx", args := ["--access-token", "{ACCESS_TOKEN}"] })] }
     "/base" (some "tok-1") true
     { command := "npx", args := ["{FILESYSTEM_BASE_PATH}"] } (by decide),
   c9_amended_literal_placeholders.2.2.1
     { mcpServers :=
       [("filesystem", { command := "npx", args := ["{FILESYSTEM_BASE_PATH}"] }),
        ("gdrive", { command := "npx", args := ["--access-token", "{ACCESS_TOKEN}"] })] }
     "/base" (some "tok-1")⟩

/-- Helper for claim C6: a dict write under a different key keeps a pair. -/
theorem mem_assocSet_of_ne {α : Type} (l : List (String × α)) (k' : String)
    (v' : α) (k : String) (v : α) (hne : ¬ k = k') (hmem : (k, v) ∈ l) :
    (k, v) ∈ assocSet l k' v' := by
  induction l with
  | nil => cases hmem
  | cons hd t ih =>
    obtain ⟨a, b⟩ := hd
    rcases List.mem_cons.mp hmem with he | ht
    · have ha : ¬ a = k' := by
        rw [show a = k from congrArg Prod.fst he.symm]
        exact hne
      rw [assocSet, if_neg ha]
      exact List.mem_cons.mpr (Or.inl he)
    · by_cases ha : a = k'
      · rw [assocSet, if_pos ha]
        exact List.mem_cons.mpr (Or.inr ht)
      · rw [assocSet, if_neg ha]
        exact List.mem_cons.mpr (Or.inr (ih ht))

/-- Helper for claim C6: a `dict.update` whose new keys all differ from `k`
keeps every `(k, v)` pair. -/
theorem mem_dictUpdate (base ps : List (String × String)) (k v : String)
    (hk : ∀ p ∈ ps, ¬ k = p.1) (hmem : (k, v) ∈ base) :
    (k, v) ∈ dictUpdate base ps := by
  induction ps generalizing base with
  | nil => exact hmem
  | cons p t ih =>
    exact ih (assocSet base p.1 p.2)
      (fun q hq => hk q (List.mem_cons.mpr (Or.inr hq)))
      (mem_assocSet_of_ne base p.1 p.2 k v (hk p (List.mem_cons.mpr (Or.inl rfl)))
        hmem)

set_option maxHeartbeats 2000000 in
/-- Counterexample to claim C6 as stated: a stored redirect URL that already
carries `status=pending` does not keep that parameter — the success branch
overwrites the `status` key with `success`, so a pre-existing query parameter
of the resolved redirect URL is not preserved. -/
theorem c6_counterexample :
    ("status", "pending") ∈ parse_qs_pairs (urlparse
      (resolveFinalRedirect
        [{ session_id := "sid-1",
           redirect_url := "https://app.example.com/done?status=pending",
           user_id := "u1", provider := "gmail", created_at := 0 }]
        (some "sid-1") "http://localhost:8001").1).query ∧
    ¬ ("status", "pending") ∈ (oauth_callback
        [{ session_id := "sid-1",
           redirect_url := "https://app.example.com/done?status=pending",
           user_id := "u1", provider := "gmail", created_at := 0 }]
        []
        { code := none, state := none, status := some "success",
          connectedAccountId := none, appName := some "gmail", error := none,
          error_description := none, session_id := some "sid-1" }
        "http://localhost:8001" 0).location.query := by
  refine ⟨by decide, by decide⟩

set_option maxHeartbeats 2000000 in
/-- Claim C6 (amended): a callback `status=success&appName=gmail` with no
session id is answered with an HTTP 307 redirect to the configured default
base URL carrying `status=success` and `appName=gmail` as query parameters;
for every callback request whose resolved redirect URL has a
duplicate-key-free query, every query parameter already on it whose key is
not one the callback itself appends (`status`, `appName`, `error`,
`message`) is preserved in the redirect (an appended key overwrites, and
parameters with blank values are dropped by the query parser); and the
endpoint always answers 307, never an HTTP failure status. -/
theorem c6_amended_callback_redirect :
    (oauth_callback [] []
        { code := none, state := none, status := some "success",
          connectedAccountId := none, appName := some "gmail", error := none,
          error_description := none, session_id := none }
        "http://localhost:8001" 0).location =
      { scheme := "http", netloc := "localhost:8001", path := "",
        query := [("status", "success"), ("appName", "gmail")],
        fragment := "" } ∧
    (∀ sessions db q base now k v,
      ((parse_qs_pairs (urlparse
          (resolveFinalRedirect sessions q.session_id base).1).query).map
        Prod.fst).Nodup →
      ¬ k ∈ ["status", "appName", "error", "message"] →
      (k, v) ∈ parse_qs_pairs (urlparse
        (resolveFinalRedirect sessions q.session_id base).1).query →
      (k, v) ∈ (oauth_callback sessions db q base now).location.query) ∧
    (∀ sessions db q base now,
      (oauth_callback sessions db q base now).httpStatus = 307) := by
  refine ⟨by decide, ?_, ?_⟩
  · intro sessions db q base now k v hnodup hknot hmem
    have hk1 : ¬ k = "status" := fun h => hknot (by simp [h])
    have hk2 : ¬ k = "appName" := fun h => hknot (by simp [h])
    have hk3 : ¬ k = "error" := fun h => hknot (by simp [h])
    have hk4 : ¬ k = "message" := fun h => hknot (by simp [h])
    unfold oauth_callback
    simp only []
    split
    · exact mem_dictUpdate _ _ _ _
        (fun p hp => by
          rcases List.mem_cons.mp hp with h | h
          · rw [show p.1 = "error" from congrArg Prod.fst h]; exact hk3
          · rcases List.mem_cons.mp h with h' | h'
            · rw [show p.1 = "message" from congrArg Prod.fst h']; exact hk4
            · cases h') hmem
    · split
      · exact mem_dictUpdate _ _ _ _
          (fun p hp => by
            rcases List.mem_cons.mp hp with h | h
            · rw [show p.1 = "status" from congrArg Prod.fst h]; exact hk1
            · rcases List.mem_cons.mp h with h' | h'
              · rw [show p.1 = "appName" from congrArg Prod.fst h']; exact hk2
              · cases h') hmem
      · exact mem_dictUpdate _ _ _ _
          (fun p hp => by
            rcases List.mem_cons.mp hp with h | h
            · rw [show p.1 = "status" from congrArg Prod.fst h]; exact hk1
            · cases h) hmem
  · intro sessions db q base now
    unfold oauth_callback
    simp only []
    split
    · rfl
    · split <;> rfl

set_option maxHeartbeats 2000000 in
/-- Witness for C6 (amended): a stored redirect URL carrying `keep=1`
retains that parameter through the success redirect. -/
theorem c6_witness :
    ("keep", "1") ∈ (oauth_callback
        [{ session_id := "sid-9",
           redirect_url := "https://app.example.com/done?keep=1",
           user_id := "u1", provider := "gmail", created_at := 0 }]
        []
        { code := none, state := none, status := some "success",
          connectedAccountId := none, appName := some "gmail", error := none,
          error_description := none, session_id := some "sid-9" }
        "http://localhost:8001" 0).location.query :=
  c6_amended_callback_redirect.2.1
    [{ session_id := "sid-9",
       redirect_url := "https://app.example.com/done?keep=1",
       user_id := "u1", provider := "gmail", created_at := 0 }]
    []
    { code := none, state := none, status := some "success",
      connectedAccountId := none, appName := some "gmail", error := none,
      error_description := none, session_id := some "sid-9" }
    "http://localhost:8001" 0 "keep" "1" (by decide) (by decide) (by decide)

end MCPService
